import Mathlib

set_option maxHeartbeats 1000000

/-!
Shallow embedding of the website scanner (src/scanner.py).

Network interaction is modelled by a `World` value describing the outcome of
each kind of outbound call (HTTP fetch, DNS resolution, nslookup, TLS
handshake).  Every method of `WebsiteScanner` that performs network I/O is
translated as a function from the `World` to its return value paired with an
`Effects` record counting the outbound HTTP request attempts and TLS
connection attempts it makes.  Header maps are association lists of
(name, value) pairs in as-received order; `dictGet`/`dictContains` model the
exact-key lookup of a plain Python `dict`, while `msgGet`/`msgContains` model
the case-insensitive lookup of `http.client.HTTPMessage`.  Strings are
modelled over their character lists (ASCII scope); `re.search` of the
alternation-of-literals patterns used by the scanner is modelled as substring
search, lowercasing the text first when the Python code passes
`re.IGNORECASE`.
-/

namespace WScan

/-- Substring test on character lists: does the second list contain the first
as a contiguous segment? -/
def containsSub : List Char → List Char → Bool
  | pat, [] => pat.isEmpty
  | pat, c :: rest => pat.isPrefixOf (c :: rest) || containsSub pat rest

/-- Python `pat in s` substring test. -/
def strContains (s pat : String) : Bool := containsSub pat.data s.data

/-- Python `s.startswith(pre)`. -/
def strStarts (s pre : String) : Bool := pre.data.isPrefixOf s.data

/-- ASCII lowercasing of one character (scope of the embedding: ASCII text,
matching Python case-insensitive matching on it). -/
def lowerChar (c : Char) : Char :=
  if c.toNat ≥ 65 && c.toNat ≤ 90 then Char.ofNat (c.toNat + 32) else c

/-- ASCII lowercasing of a string (`str.lower`, and the effect of
`re.IGNORECASE` on the scanner's literal alternation patterns). -/
def lowerStr (s : String) : String := ⟨s.data.map lowerChar⟩

/-- Split around the first occurrence of `sep`: `some (before, after)`, or
`none` when `sep` does not occur. -/
def breakOn (sep : List Char) : List Char → Option (List Char × List Char)
  | [] => if sep.isEmpty then some ([], []) else none
  | c :: rest =>
    if sep.isPrefixOf (c :: rest) then some ([], (c :: rest).drop sep.length)
    else match breakOn sep rest with
      | some (pre, post) => some (c :: pre, post)
      | none => none

/-- Numeric value of a digit string. -/
def natOfDigits (l : List Char) : Nat := l.foldl (fun acc c => acc * 10 + (c.toNat - 48)) 0

/-- A single-quote character as a string (the second quote alternative of the
regex character class used by `detect_programming_language`). -/
def squote : String := String.mk [Char.ofNat 39]

/-- Model of `re.search(ext + a-quote-class, content)`: the extension literal
followed by a double or single quote occurs in the body. -/
def extQuoted (content ext : String) : Bool :=
  strContains content (ext ++ "\"") || strContains content (ext ++ squote)

/-- Exact-key lookup in a Python `dict` built from an association list
(first occurrence wins, as in `dict(HTTPMessage)`). -/
def dictGet (hs : List (String × String)) (k : String) : Option String :=
  (hs.find? (fun p => p.1 == k)).map (fun p => p.2)

/-- Exact-key membership in a Python `dict`. -/
def dictContains (hs : List (String × String)) (k : String) : Bool :=
  hs.any (fun p => p.1 == k)

/-- Case-insensitive lookup of `HTTPMessage.get` (first occurrence wins). -/
def msgGet (hs : List (String × String)) (k : String) : Option String :=
  (hs.find? (fun p => lowerStr p.1 == lowerStr k)).map (fun p => p.2)

/-- Case-insensitive membership of `name in HTTPMessage`. -/
def msgContains (hs : List (String × String)) (k : String) : Bool :=
  hs.any (fun p => lowerStr p.1 == lowerStr k)

/-- JSON-like report values: the scanner assembles nested dicts of strings,
numbers and booleans. -/
inductive Val where
  | s (v : String)
  | n (v : Nat)
  | b (v : Bool)
  | obj (fields : List (String × Val))

/-- Field lookup in a report section. -/
def getField (sec : List (String × Val)) (k : String) : Option Val :=
  (sec.find? (fun p => p.1 == k)).map (fun p => p.2)

/-- The key list of a report section. -/
def sectionKeys (sec : List (String × Val)) : List String := sec.map (fun p => p.1)

/-- Count of outbound network call attempts made by a piece of scanner code:
HTTP request attempts (`urllib.request.urlopen`) and TLS connection attempts
(`socket.create_connection` + `wrap_socket`). -/
structure Effects where
  http : Nat
  tls : Nat
deriving DecidableEq

instance : Add Effects := ⟨fun a b => ⟨a.http + b.http, a.tls + b.tls⟩⟩

theorem Effects.add_http (a b : Effects) : (a + b).http = a.http + b.http := rfl

theorem Effects.add_tls (a b : Effects) : (a + b).tls = a.tls + b.tls := rfl

/-- Result of a successful HTTP fetch: status code, headers in as-received
order and casing, decoded body, and the measured request duration in
hundredths of a millisecond. -/
structure FetchResponse where
  status : Nat
  headers : List (String × String)
  body : String
  elapsedCentiMs : Nat

/-- The dict returned by `ssock.getpeercert()` on a successful handshake, as
far as the probe reads it.  `issuerPresent` / `subjectPresent` record whether
the dict carries an `issuer` / `subject` entry — when present it is a tuple
of RDN tuples (as the ssl module returns for every validated certificate),
on whose first element the probe's `.get('commonName', ...)` raises
`AttributeError`; when absent the probe's `[{}]` default makes the common
name `Unknown`.  `notBefore` / `notAfter` are the validity strings. -/
structure Cert where
  issuerPresent : Bool
  subjectPresent : Bool
  notBefore : Option String
  notAfter : Option String

/-- `str(e)` for the `AttributeError` raised by calling `.get` on an RDN
tuple taken from `getpeercert()`. -/
def attrGetErr : String :=
  squote ++ "tuple" ++ squote ++ " object has no attribute " ++ squote ++ "get" ++ squote

/-- Outcome of every kind of outbound call the scanner can make during one
scan: `none` means the call raises.  `tlsErr` is the message of the exception
raised when the TLS handshake fails, `scanTime` the value of
`datetime.now().isoformat()`. -/
structure World where
  fetch : Option FetchResponse
  hostAddr : Option String
  nameServers : Option (List String)
  tls : Option Cert
  tlsErr : String
  scanTime : String

/-- Model of `urllib.parse.urlparse` restricted to what the scanner reads:
scheme (lowercased), netloc, and an explicit port. -/
structure ParsedURL where
  scheme : String
  netloc : String
  port : Option Nat

/-- Parse scheme/netloc/port from an absolute URL (`scheme://netloc/...`). -/
def parseURL (url : String) : ParsedURL :=
  match breakOn "://".data url.data with
  | none => ⟨"", "", none⟩
  | some (schemeChars, restChars) =>
    let netlocChars := restChars.takeWhile (fun c => c != '/')
    let afterColon := (netlocChars.reverse.takeWhile (fun c => c != ':')).reverse
    let port :=
      if netlocChars.any (fun c => c == ':') then
        if afterColon ≠ [] ∧ afterColon.all Char.isDigit then some (natOfDigits afterColon)
        else none
      else none
    ⟨lowerStr ⟨schemeChars⟩, ⟨netlocChars⟩, port⟩

/-- `parsed_url.port or (443 if parsed_url.scheme == 'https' else 80)`:
Python `or` falls through on `None` and on port `0`. -/
def effectivePort (p : ParsedURL) : Nat :=
  match p.port with
  | some q => if q == 0 then (if p.scheme == "https" then 443 else 80) else q
  | none => if p.scheme == "https" then 443 else 80

/-- Left-pad a two-digit fraction. -/
def pad2 (n : Nat) : String := if n < 10 then "0" ++ toString n else toString n

/-- Render `num / den` with two-decimal precision, rounding half to even as
Python float formatting does (exact for the scanner's divisors). -/
def format2dec (num den : Nat) : String :=
  let scaled := num * 100
  let q0 := scaled / den
  let r := scaled % den
  let q := if 2 * r > den ∨ (2 * r = den ∧ q0 % 2 = 1) then q0 + 1 else q0
  toString (q / 100) ++ "." ++ pad2 (q % 100)

/-- The fixed allow-list iterated by `get_security_headers`. -/
def security_header_names : List String :=
  ["Strict-Transport-Security", "Content-Security-Policy", "X-Frame-Options",
   "X-Content-Type-Options", "X-XSS-Protection", "Referrer-Policy"]

/-- The header-filtering loop of `get_security_headers` on a successfully
fetched header dict: keep each allow-listed name present as an exact key. -/
def securityHeadersOf (hs : List (String × String)) : List (String × String) :=
  security_header_names.filterMap (fun name => (dictGet hs name).map (fun v => (name, v)))

/-- The cache header list of `check_caching`. -/
def cache_header_names : List String :=
  ["Cache-Control", "Expires", "ETag", "Last-Modified"]

/-- `detect_web_server`: substring of the Server header before the first
slash, exact-key dict lookup. -/
def detect_web_server (hdrs : List (String × String)) : String :=
  let server := (dictGet hdrs "Server").getD "Unknown"
  if server == "Unknown" then "Unknown" else ⟨server.data.takeWhile (fun c => c != '/')⟩

/-- `detect_programming_language`: X-Powered-By header signals first, then
case-sensitive body scan for quoted extension literals in fixed order. -/
def detect_programming_language (hdrs : List (String × String)) (content : String) : String :=
  let powered_by := (dictGet hdrs "X-Powered-By").getD ""
  if strContains powered_by "PHP" then "PHP"
  else if strContains powered_by "ASP.NET" then "ASP.NET"
  else if extQuoted content ".php" then "PHP"
  else if extQuoted content ".aspx" then "ASP.NET"
  else if extQuoted content ".jsp" then "Java"
  else if extQuoted content ".py" then "Python"
  else "Unknown"

/-- Does the (already lowercased, for IGNORECASE tables) text match any of the
literal alternatives of a catalog pattern? -/
def matchesAnyPat (c : String) (pats : List String) : Bool :=
  pats.any (fun pat => strContains c pat)

/-- The CMS signature catalog, in the iteration order of `cms_patterns`;
each regex is an alternation of literals. -/
def cms_patterns : List (String × List String) :=
  [("WordPress", ["wp-content", "wp-includes", "wordpress"]),
   ("Drupal", ["drupal", "sites/default"]),
   ("Joomla", ["joomla", "option=com_"]),
   ("Magento", ["magento", "mage/js"]),
   ("Shopify", ["shopify", "cdn.shopify"])]

/-- `detect_cms`: first catalog entry whose pattern matches case-insensitively,
else the `Custom/Unknown` sentinel. -/
def detect_cms (content : String) : String :=
  let c := lowerStr content
  match cms_patterns.find? (fun p => matchesAnyPat c p.2) with
  | some p => p.1
  | none => "Custom/Unknown"

/-- The JS framework signature catalog, in the iteration order of
`framework_patterns`. -/
def framework_patterns : List (String × List String) :=
  [("React", ["react", "reactjs"]),
   ("Vue.js", ["vue.js", "vuejs"]),
   ("Angular", ["angular", "ng-"]),
   ("jQuery", ["jquery"])]

/-- The accumulation loop of `detect_js_frameworks`: every matching label is
appended in catalog order. -/
def matchedFrameworks (content : String) : List String :=
  framework_patterns.foldl
    (fun acc p => if matchesAnyPat (lowerStr content) p.2 then acc ++ [p.1] else acc) []

/-- `detect_js_frameworks`: comma-join of all matches, `Unknown` when none. -/
def detect_js_frameworks (content : String) : String :=
  let fs := matchedFrameworks content
  if fs.isEmpty then "Unknown" else String.intercalate ", " fs

/-- The analytics signature catalog, in the iteration order of
`analytics_patterns`. -/
def analytics_patterns : List (String × List String) :=
  [("Google Analytics", ["google-analytics", "gtag", "ga("]),
   ("Google Tag Manager", ["googletagmanager"]),
   ("Facebook Pixel", ["facebook.net/tr", "fbq("]),
   ("Hotjar", ["hotjar"])]

/-- `detect_analytics`: first catalog entry whose pattern matches
case-insensitively, else `None detected`. -/
def detect_analytics (content : String) : String :=
  let c := lowerStr content
  match analytics_patterns.find? (fun p => matchesAnyPat c p.2) with
  | some p => p.1
  | none => "None detected"

/-- `get_basic_info`: one fetch attempt for the status code; the remaining
fields come from the parsed URL. -/
def get_basic_info (url domain : String) (w : World) : List (String × Val) × Effects :=
  let p := parseURL url
  ([("url", .s url), ("domain", .s domain),
    ("status_code", match w.fetch with | some r => .n r.status | none => .s "Unknown"),
    ("protocol", .s p.scheme),
    ("port", .n (effectivePort p))],
   ⟨1, 0⟩)

/-- The stubbed geolocation collaborator `get_location_info`. -/
def get_location_info (_ip : String) : List (String × Val) :=
  [("country", .s "Unknown"), ("city", .s "Unknown"), ("isp", .s "Unknown")]

/-- `get_server_info`: DNS resolution, one fetch attempt for the Server
header (case-insensitive message lookup), stubbed geolocation. -/
def get_server_info (_domain : String) (w : World) : List (String × Val) × Effects :=
  let ip := w.hostAddr.getD "Unknown"
  let server := match w.fetch with
    | some r => (msgGet r.headers "Server").getD "Unknown"
    | none => "Unknown"
  let loc := get_location_info ip
  ([("ip_address", .s ip), ("server", .s server),
    ("location", (getField loc "country").getD (.s "Unknown")),
    ("city", (getField loc "city").getD (.s "Unknown")),
    ("isp", (getField loc "isp").getD (.s "Unknown"))],
   ⟨1, 0⟩)

/-- The nameserver enumeration `get_name_servers`: the external `nslookup`
call abstracted to its parsed nameserver list (`none` when it raises). -/
def get_name_servers (w : World) : String :=
  match w.nameServers with
  | some l => if l.isEmpty then "Unknown" else String.intercalate ", " l
  | none => "Unknown"

/-- `get_domain_info`: stubbed registrar data plus the nslookup result; no
HTTP or TLS traffic. -/
def get_domain_info (w : World) : List (String × Val) × Effects :=
  ([("registrar", .s "Unknown"), ("creation_date", .s "Unknown"),
    ("expiry_date", .s "Unknown"), ("name_servers", .s (get_name_servers w)),
    ("dnssec", .s "Unknown")],
   ⟨0, 0⟩)

/-- `get_ssl_info`: guarded by `self.url.startswith('https')`; on the https
path one TLS connection is attempted, and any exception inside the `try` is
converted into an `enabled=false` section carrying the exception text.  On a
successful handshake the success dict is built field by field: when the
certificate dict has an `issuer` entry, `cert.get('issuer',[{}])[0].get(...)`
raises `AttributeError` on the RDN tuple (likewise for `subject`, evaluated
after the validity fields), so the `except` path returns
`enabled=false` with that message; the five-key success dict is only reached
when the dict lacks both `issuer` and `subject`, and then both common names
are `Unknown` via the `[{}]` defaults. -/
def get_ssl_info (url _domain : String) (w : World) : List (String × Val) × Effects :=
  if strStarts url "https" then
    match w.tls with
    | some cert =>
      if cert.issuerPresent then
        ([("enabled", .b false), ("message", .s ("SSL error: " ++ attrGetErr))], ⟨0, 1⟩)
      else if cert.subjectPresent then
        ([("enabled", .b false), ("message", .s ("SSL error: " ++ attrGetErr))], ⟨0, 1⟩)
      else
        ([("enabled", .b true),
          ("issuer", .s "Unknown"),
          ("valid_from", .s (cert.notBefore.getD "Unknown")),
          ("valid_to", .s (cert.notAfter.getD "Unknown")),
          ("subject", .s "Unknown")],
         ⟨0, 1⟩)
    | none =>
      ([("enabled", .b false), ("message", .s ("SSL error: " ++ w.tlsErr))], ⟨0, 1⟩)
  else
    ([("enabled", .b false), ("message", .s "SSL not enabled")], ⟨0, 0⟩)

/-- `get_security_headers`: its own fetch attempt, then the exact-key filter
over `dict(response.headers)`; empty dict when the fetch raises. -/
def get_security_headers (w : World) : List (String × String) × Effects :=
  (match w.fetch with
   | some r => securityHeadersOf r.headers
   | none => [],
   ⟨1, 0⟩)

/-- `get_security_info`: one TLS probe plus one security-header read; the two
boolean flags are computed from the same `security_headers` dict that the
section stores. -/
def get_security_info (url domain : String) (w : World) : List (String × Val) × Effects :=
  let ssl := get_ssl_info url domain w
  let sh := get_security_headers w
  ([("ssl_certificate", .obj ssl.1),
    ("security_headers", .obj (sh.1.map (fun p => (p.1, Val.s p.2)))),
    ("hsts_enabled", .b (sh.1.any (fun p => p.1 == "Strict-Transport-Security"))),
    ("content_security_policy", .b (sh.1.any (fun p => p.1 == "Content-Security-Policy")))],
   ssl.2 + sh.2)

/-- `check_compression`: its own fetch attempt; `Content-Encoding` membership
is case-insensitive on the message object. -/
def check_compression (w : World) : String × Effects :=
  (match w.fetch with
   | some r => if msgContains r.headers "Content-Encoding" then "Enabled" else "Disabled"
   | none => "Unknown",
   ⟨1, 0⟩)

/-- `check_caching`: its own fetch attempt; any of the four cache headers
present (case-insensitive on the message object) means enabled. -/
def check_caching (w : World) : String × Effects :=
  (match w.fetch with
   | some r => if cache_header_names.any (fun h => msgContains r.headers h) then "Enabled" else "Disabled"
   | none => "Unknown",
   ⟨1, 0⟩)

/-- `get_performance_info`: its own fetch attempt plus the two helper fetches;
page size from a digits-only Content-Length, kilobytes with two decimals. -/
def get_performance_info (w : World) : List (String × Val) × Effects :=
  let comp := check_compression w
  let cach := check_caching w
  let cl : String := match w.fetch with
    | some r => (msgGet r.headers "Content-Length").getD "Unknown"
    | none => "Unknown"
  ([("response_time", match w.fetch with
      | some r => .s (format2dec r.elapsedCentiMs 100 ++ "ms")
      | none => .s "Unknown"),
    ("compression", .s comp.1),
    ("caching", .s cach.1),
    ("page_size", .s (if cl != "Unknown" && cl != "" && cl.data.all Char.isDigit
                      then format2dec (natOfDigits cl.data) 1024 ++ " KB"
                      else "Unknown"))],
   ⟨1, 0⟩ + comp.2 + cach.2)

/-- `get_technology_info`: its own fetch attempt, then the five pure
detectors over `dict(headers)` and the decoded body (empty on failure). -/
def get_technology_info (w : World) : List (String × Val) × Effects :=
  let content := match w.fetch with | some r => r.body | none => ""
  let hdrs := match w.fetch with | some r => r.headers | none => []
  ([("web_server", .s (detect_web_server hdrs)),
    ("programming_language", .s (detect_programming_language hdrs content)),
    ("cms", .s (detect_cms content)),
    ("javascript_frameworks", .s (detect_js_frameworks content)),
    ("analytics", .s (detect_analytics content))],
   ⟨1, 0⟩)

/-- `scan`: assemble the six category sections (none of the getters raises in
the model, so the success branch is always taken) and sum the traffic. -/
def scan (url domain : String) (w : World) : List (String × Val) × Effects :=
  let bi := get_basic_info url domain w
  let si := get_server_info domain w
  let di := get_domain_info w
  let sec := get_security_info url domain w
  let pi := get_performance_info w
  let ti := get_technology_info w
  ([("success", .b true),
    ("data", .obj
      [("basic_info", .obj bi.1), ("server_info", .obj si.1),
       ("domain_info", .obj di.1), ("security_info", .obj sec.1),
       ("performance_info", .obj pi.1), ("technology_info", .obj ti.1)]),
    ("scan_time", .s w.scanTime)],
   bi.2 + si.2 + di.2 + sec.2 + pi.2 + ti.2)

/-- `main`: anything other than exactly one URL argument exits 1 after a
usage message; otherwise the report is printed and the process exits 0. -/
def mainExitCode (argv : List String) : Nat := if argv.length == 2 then 0 else 1

/-- A world where every outbound call succeeds. -/
def wAllOK : World :=
  { fetch := some { status := 200,
                    headers := [("Server", "nginx/1.18"), ("Content-Encoding", "gzip"),
                                ("Content-Length", "2048")],
                    body := "wp-content",
                    elapsedCentiMs := 12345 },
    hostAddr := some "93.184.216.34",
    nameServers := some ["a.iana-servers.net", "b.iana-servers.net"],
    tls := some { issuerPresent := true, subjectPresent := true,
                  notBefore := some "Jan  1 00:00:00 2025 GMT",
                  notAfter := some "Jan  1 00:00:00 2027 GMT" },
    tlsErr := "",
    scanTime := "2026-10-12T00:00:00" }

/-- A world where every outbound call raises. -/
def wAllFail : World :=
  { fetch := none, hostAddr := none, nameServers := none, tls := none,
    tlsErr := "timed out", scanTime := "2026-10-12T00:00:00" }

/-- A world whose only security header arrives with lowercase casing. -/
def rLowerHSTS : FetchResponse :=
  { status := 200,
    headers := [("strict-transport-security", "max-age=31536000")],
    body := "", elapsedCentiMs := 0 }

def wLowerHSTS : World :=
  { fetch := some rLowerHSTS, hostAddr := none, nameServers := none, tls := none,
    tlsErr := "", scanTime := "t" }

/-- A world with canonical-cased HSTS and a lowercase non-canonical header. -/
def rMixedSec : FetchResponse :=
  { status := 200,
    headers := [("Strict-Transport-Security", "max-age=1"), ("x-frame-options", "DENY")],
    body := "", elapsedCentiMs := 0 }

def wMixedSec : World :=
  { fetch := some rMixedSec, hostAddr := none, nameServers := none, tls := none,
    tlsErr := "", scanTime := "t" }

/-- A world whose fetch carries `Content-Length: 2048`. -/
def rCL2048 : FetchResponse :=
  { status := 200, headers := [("Content-Length", "2048")], body := "", elapsedCentiMs := 500 }

def wCL2048 : World :=
  { fetch := some rCL2048, hostAddr := none, nameServers := none, tls := none,
    tlsErr := "", scanTime := "t" }

/-- A world whose fetch has no Content-Length header. -/
def rNoCL : FetchResponse :=
  { status := 200, headers := [("Server", "nginx")], body := "", elapsedCentiMs := 500 }

def wNoCL : World :=
  { fetch := some rNoCL, hostAddr := none, nameServers := none, tls := none,
    tlsErr := "", scanTime := "t" }

/-- A validated certificate dict as `getpeercert()` returns it: issuer and
subject entries present as RDN tuples. -/
def certRDN : Cert :=
  { issuerPresent := true, subjectPresent := true,
    notBefore := some "Jan  1 00:00:00 2025 GMT",
    notAfter := some "Jan  1 00:00:00 2027 GMT" }

/-- A world where only the TLS handshake succeeds. -/
def wTLSonly : World :=
  { fetch := none, hostAddr := none, nameServers := none,
    tls := some certRDN, tlsErr := "", scanTime := "t" }

theorem get_ssl_info_http_zero (url domain : String) (w : World) :
    ((get_ssl_info url domain w).2).http = 0 := by
  unfold get_ssl_info
  cases hc : strStarts url "https"
  · simp only [hc, Bool.false_eq_true, reduceIte]
  · simp only [hc, reduceIte]
    cases w.tls
    · rfl
    · rename_i c
      cases hi : c.issuerPresent <;> cases hs : c.subjectPresent <;>
        simp [hi, hs]

theorem securityHeadersOf_allowlisted (hs : List (String × String)) :
    ((securityHeadersOf hs).all (fun p => security_header_names.contains p.1)) = true := by
  rw [List.all_eq_true]
  intro p hp
  rw [securityHeadersOf, List.mem_filterMap] at hp
  obtain ⟨name, hname, heq⟩ := hp
  rw [Option.map_eq_some'] at heq
  obtain ⟨v, _, hv⟩ := heq
  subst hv
  fin_cases hname <;> rfl

/-- C1 counterexample: in a world where every call succeeds, one scan of the
target issues seven outbound HTTP requests, not one, and the compression
check and technology fingerprint acquisition each perform a request of their
own. -/
theorem C1_counterexample :
    (scan "https://example.com" "example.com" wAllOK).2.http = 7 ∧
    (check_compression wAllOK).2.http = 1 ∧
    (get_technology_info wAllOK).2.http = 1 ∧
    (7 : Nat) ≠ 1 := by
  refine ⟨by decide, rfl, rfl, by decide⟩

/-- C1 (amended): the fetch result is not shared.  Every scan issues exactly
seven HTTP request attempts — `get_basic_info`, `get_server_info`,
`get_security_headers`, the performance probe with its compression and
caching helpers, and `get_technology_info` each fetch the URL again — so the
header/performance helpers and the fingerprint data acquisition each perform
network access of their own. -/
theorem C1_scan_issues_seven_requests (url domain : String) (w : World) :
    (scan url domain w).2.http = 7 ∧
    (check_compression w).2.http = 1 ∧
    (check_caching w).2.http = 1 ∧
    (get_security_headers w).2.http = 1 ∧
    (get_performance_info w).2.http = 3 ∧
    (get_technology_info w).2.http = 1 := by
  refine ⟨?_, rfl, rfl, rfl, rfl, rfl⟩
  show ((get_basic_info url domain w).2 + (get_server_info domain w).2 +
      (get_domain_info w).2 + (get_security_info url domain w).2 +
      (get_performance_info w).2 + (get_technology_info w).2).http = 7
  simp only [Effects.add_http, get_basic_info, get_server_info, get_domain_info,
    get_security_info, get_performance_info, get_technology_info, check_compression,
    check_caching, get_security_headers]
  rw [get_ssl_info_http_zero]

/-- C2 counterexample: the `security_headers` subsection does not keep a
fixed key set across probe outcomes — for the same target it records one key
per allow-listed header present when the fetch succeeds, and has no keys at
all when the fetch fails; an absent header is a missing field, not an
explicit unknown-valued one. -/
theorem C2_counterexample :
    getField (get_security_info "https://example.com" "example.com" wMixedSec).1
      "security_headers" =
      some (Val.obj [("Strict-Transport-Security", Val.s "max-age=1")]) ∧
    getField (get_security_info "https://example.com" "example.com" wAllFail).1
      "security_headers" = some (Val.obj []) ∧
    sectionKeys [("Strict-Transport-Security", Val.s "max-age=1")] ≠
      sectionKeys ([] : List (String × Val)) := by
  refine ⟨rfl, rfl, by decide⟩

/-- C2 (amended): the report's top-level and category sections keep fixed
key sets regardless of probe outcomes, but the two nested maps do not: the
`security_headers` subsection holds exactly the allow-listed header names
found on the response (so its keys vary, though always drawn from the fixed
six-name allow-list), and the `ssl_certificate` subsection, while its code
has a five-key success shape, produces the keys `enabled, message` on every
path reachable with a validated certificate — non-https targets, failed
connections or handshakes, and successful handshakes, where the common-name
extraction raises `AttributeError` on the certificate's RDN tuples and is
caught by the probe's handler. -/
theorem C2_section_key_shapes (url domain : String) (w : World) :
    sectionKeys (scan url domain w).1 = ["success", "data", "scan_time"] ∧
    sectionKeys (get_basic_info url domain w).1 =
      ["url", "domain", "status_code", "protocol", "port"] ∧
    sectionKeys (get_server_info domain w).1 =
      ["ip_address", "server", "location", "city", "isp"] ∧
    sectionKeys (get_domain_info w).1 =
      ["registrar", "creation_date", "expiry_date", "name_servers", "dnssec"] ∧
    sectionKeys (get_security_info url domain w).1 =
      ["ssl_certificate", "security_headers", "hsts_enabled", "content_security_policy"] ∧
    sectionKeys (get_performance_info w).1 =
      ["response_time", "compression", "caching", "page_size"] ∧
    sectionKeys (get_technology_info w).1 =
      ["web_server", "programming_language", "cms", "javascript_frameworks", "analytics"] ∧
    (sectionKeys (get_ssl_info url domain w).1 = ["enabled", "message"] ∨
     sectionKeys (get_ssl_info url domain w).1 =
       ["enabled", "issuer", "valid_from", "valid_to", "subject"]) ∧
    ((∀ c, w.tls = some c → c.issuerPresent = true) →
      sectionKeys (get_ssl_info url domain w).1 = ["enabled", "message"]) ∧
    ((get_security_headers w).1.all (fun p => security_header_names.contains p.1)) = true := by
  refine ⟨rfl, rfl, rfl, rfl, rfl, rfl, rfl, ?_, ?_, ?_⟩
  · unfold get_ssl_info
    cases hc : strStarts url "https"
    · simp only [hc, Bool.false_eq_true, reduceIte]
      exact Or.inl rfl
    · simp only [hc, reduceIte]
      cases w.tls
      · exact Or.inl rfl
      · rename_i c
        cases hi : c.issuerPresent
        · cases hs : c.subjectPresent
          · simp only [hi, hs, Bool.false_eq_true, reduceIte]
            exact Or.inr rfl
          · simp only [hi, hs, Bool.false_eq_true, reduceIte]
            exact Or.inl rfl
        · simp only [hi, reduceIte]
          exact Or.inl rfl
  · intro hv
    unfold get_ssl_info
    cases hc : strStarts url "https"
    · simp only [hc, Bool.false_eq_true, reduceIte]
      rfl
    · simp only [hc, reduceIte]
      cases ht : w.tls
      · rfl
      · rename_i c
        simp only [hv c ht, reduceIte]
        rfl
  · cases hf : w.fetch
    · simp only [get_security_headers, hf]
      rfl
    · simp only [get_security_headers, hf]
      exact securityHeadersOf_allowlisted _

/-- C2 witness: in a world whose handshake succeeds with a validated
certificate (issuer RDNs present), the `ssl_certificate` section of an https
target still has exactly the keys `enabled, message`. -/
theorem C2_section_key_shapes_witness :
    sectionKeys (get_ssl_info "https://example.com" "example.com" wTLSonly).1 =
      ["enabled", "message"] :=
  (C2_section_key_shapes "https://example.com" "example.com" wTLSonly).2.2.2.2.2.2.2.2.1
    (fun c hc => by rw [← Option.some.inj hc]; rfl)

/-- C4 counterexample: security-header lookup is not case-insensitive — a
response carrying `strict-transport-security` in lowercase (present in the
message under case-insensitive lookup) is not recorded at all. -/
theorem C4_counterexample :
    msgContains rLowerHSTS.headers "Strict-Transport-Security" = true ∧
    (get_security_headers wLowerHSTS).1 = [] := by
  decide

/-- C4 (amended): security-header matching is an exact, case-sensitive key
lookup in the received header dict — a pair is recorded iff its name is one
of the six allow-listed names exactly as received and its value is the
header's literal value; nothing outside the allow-list is ever recorded. -/
theorem C4_exact_case_allowlist (w : World) (r : FetchResponse) (hf : w.fetch = some r)
    (name value : String) :
    ((name, value) ∈ (get_security_headers w).1 ↔
      name ∈ security_header_names ∧ dictGet r.headers name = some value) := by
  simp only [get_security_headers, hf, securityHeadersOf, List.mem_filterMap,
    Option.map_eq_some', Prod.mk.injEq]
  constructor
  · rintro ⟨n, hn, v, hv, rfl, rfl⟩
    exact ⟨hn, hv⟩
  · rintro ⟨hn, hv⟩
    exact ⟨name, hn, value, hv, rfl, rfl⟩

/-- C4 witness: on a response with a canonical-cased HSTS header and a
lowercase `x-frame-options`, the canonical pair is recorded and the
non-canonical one is not. -/
theorem C4_exact_case_allowlist_witness :
    (("Strict-Transport-Security", "max-age=1") ∈ (get_security_headers wMixedSec).1) ∧
    ¬ (("x-frame-options", "DENY") ∈ (get_security_headers wMixedSec).1) := by
  constructor
  · exact (C4_exact_case_allowlist wMixedSec rMixedSec rfl _ _).mpr ⟨by decide, rfl⟩
  · intro h
    have h2 := (C4_exact_case_allowlist wMixedSec rMixedSec rfl _ _).mp h
    exact absurd h2.1 (by decide)

/-- C5 counterexample: the TLS guard tests `url.startswith('https')`, not the
parsed scheme — for the target `httpsx://example.com`, whose scheme is
`httpsx` and not `https`, a TLS connection is still attempted. -/
theorem C5_counterexample :
    (parseURL "httpsx://example.com").scheme ≠ "https" ∧
    (get_ssl_info "httpsx://example.com" "example.com" wAllFail).2.tls = 1 := by
  decide

/-- C5 (amended): for every URL string that does not start with `https` the
TLS probe returns `enabled = false` with no network call attempted, and for
every URL starting with `https` whose connection or handshake raises it
returns `enabled = false` with a descriptive `SSL error:` cause instead of
propagating the failure. -/
theorem C5_ssl_probe_guard (url domain : String) (w : World) :
    (strStarts url "https" = false →
      get_ssl_info url domain w =
        ([("enabled", .b false), ("message", .s "SSL not enabled")], ⟨0, 0⟩)) ∧
    (strStarts url "https" = true → w.tls = none →
      get_ssl_info url domain w =
        ([("enabled", .b false), ("message", .s ("SSL error: " ++ w.tlsErr))], ⟨0, 1⟩)) := by
  constructor
  · intro h
    simp only [get_ssl_info, h, Bool.false_eq_true, reduceIte]
  · intro h ht
    simp only [get_ssl_info, h, ht, reduceIte]

/-- C5 witness: an http target yields a silent `enabled = false` with zero
network calls; an https target in an all-failing world yields
`enabled = false` with the exception text after one TLS attempt. -/
theorem C5_ssl_probe_guard_witness :
    get_ssl_info "http://example.com" "example.com" wAllFail =
      ([("enabled", .b false), ("message", .s "SSL not enabled")], ⟨0, 0⟩) ∧
    get_ssl_info "https://example.com" "example.com" wAllFail =
      ([("enabled", .b false), ("message", .s ("SSL error: " ++ wAllFail.tlsErr))], ⟨0, 1⟩) :=
  ⟨(C5_ssl_probe_guard "http://example.com" "example.com" wAllFail).1 (by decide),
   (C5_ssl_probe_guard "https://example.com" "example.com" wAllFail).2 (by decide) rfl⟩

/-- C6 counterexample: an `X-Powered-By` value containing `ASP.NET` does not
always yield ASP.NET — when it also contains `PHP`, the PHP check wins. -/
theorem C6_counterexample :
    strContains "PHP, ASP.NET" "ASP.NET" = true ∧
    detect_programming_language [("X-Powered-By", "PHP, ASP.NET")] "" = "PHP" ∧
    ("PHP" : String) ≠ "ASP.NET" := by
  decide

/-- C6 (amended): an `X-Powered-By` value containing `PHP` yields PHP, and one
containing `ASP.NET` but not `PHP` yields ASP.NET, in both cases without
consulting the body; otherwise the body is scanned for the quoted extension
literals in the fixed order `.php`, `.aspx`, `.jsp`, `.py` (PHP, ASP.NET,
Java, Python), first match winning, and the result is the `Unknown` sentinel
iff none of these signals matches. -/
theorem C6_language_priority (hdrs : List (String × String)) (content : String) :
    (strContains ((dictGet hdrs "X-Powered-By").getD "") "PHP" = true →
      ∀ c, detect_programming_language hdrs c = "PHP") ∧
    (strContains ((dictGet hdrs "X-Powered-By").getD "") "PHP" = false →
      strContains ((dictGet hdrs "X-Powered-By").getD "") "ASP.NET" = true →
      ∀ c, detect_programming_language hdrs c = "ASP.NET") ∧
    (strContains ((dictGet hdrs "X-Powered-By").getD "") "PHP" = false →
      strContains ((dictGet hdrs "X-Powered-By").getD "") "ASP.NET" = false →
      detect_programming_language hdrs content =
        (if extQuoted content ".php" then "PHP"
         else if extQuoted content ".aspx" then "ASP.NET"
         else if extQuoted content ".jsp" then "Java"
         else if extQuoted content ".py" then "Python"
         else "Unknown")) ∧
    (detect_programming_language hdrs content = "Unknown" ↔
      (strContains ((dictGet hdrs "X-Powered-By").getD "") "PHP" = false ∧
       strContains ((dictGet hdrs "X-Powered-By").getD "") "ASP.NET" = false ∧
       extQuoted content ".php" = false ∧ extQuoted content ".aspx" = false ∧
       extQuoted content ".jsp" = false ∧ extQuoted content ".py" = false)) := by
  refine ⟨?_, ?_, ?_, ?_⟩
  · intro h c
    simp [detect_programming_language, h]
  · intro h1 h2 c
    simp [detect_programming_language, h1, h2]
  · intro h1 h2
    simp [detect_programming_language, h1, h2]
  · cases h1 : strContains ((dictGet hdrs "X-Powered-By").getD "") "PHP" <;>
      cases h2 : strContains ((dictGet hdrs "X-Powered-By").getD "") "ASP.NET" <;>
      cases h3 : extQuoted content ".php" <;>
      cases h4 : extQuoted content ".aspx" <;>
      cases h5 : extQuoted content ".jsp" <;>
      cases h6 : extQuoted content ".py" <;>
      simp [detect_programming_language, h1, h2, h3, h4, h5, h6]

/-- C6 witness: the PHP header signal decides without the body; the ASP.NET
header signal decides when PHP is absent. -/
theorem C6_language_priority_witness :
    detect_programming_language [("X-Powered-By", "PHP/8.2")] "no signal here" = "PHP" ∧
    detect_programming_language [("X-Powered-By", "ASP.NET")] "no signal here" = "ASP.NET" :=
  ⟨(C6_language_priority [("X-Powered-By", "PHP/8.2")] "").1 (by decide) "no signal here",
   (C6_language_priority [("X-Powered-By", "ASP.NET")] "").2.1 (by decide) (by decide)
     "no signal here"⟩

/-- C7: JS-framework detection accumulates every matching label: each of the
four catalog patterns is evaluated independently on the lowercased body, the
match list is exactly the catalog-ordered sublist of matching labels, the
result is `Unknown` iff no pattern matches, and a body containing both
`react` and `jquery` (after lowercasing) contributes both labels. -/
theorem C7_js_framework_accumulation (content : String) :
    (("React" ∈ matchedFrameworks content) ↔
      (strContains (lowerStr content) "react" || strContains (lowerStr content) "reactjs")
        = true) ∧
    (("Vue.js" ∈ matchedFrameworks content) ↔
      (strContains (lowerStr content) "vue.js" || strContains (lowerStr content) "vuejs")
        = true) ∧
    (("Angular" ∈ matchedFrameworks content) ↔
      (strContains (lowerStr content) "angular" || strContains (lowerStr content) "ng-")
        = true) ∧
    (("jQuery" ∈ matchedFrameworks content) ↔
      strContains (lowerStr content) "jquery" = true) ∧
    matchedFrameworks content =
      (["React", "Vue.js", "Angular", "jQuery"].filter
        (fun l => decide (l ∈ matchedFrameworks content))) ∧
    (detect_js_frameworks content = "Unknown" ↔ matchedFrameworks content = []) ∧
    (strContains (lowerStr content) "react" = true →
      strContains (lowerStr content) "jquery" = true →
      "React" ∈ matchedFrameworks content ∧ "jQuery" ∈ matchedFrameworks content) := by
  cases h1 : strContains (lowerStr content) "react" <;>
    cases h2 : strContains (lowerStr content) "reactjs" <;>
    cases h3 : strContains (lowerStr content) "vue.js" <;>
    cases h4 : strContains (lowerStr content) "vuejs" <;>
    cases h5 : strContains (lowerStr content) "angular" <;>
    cases h6 : strContains (lowerStr content) "ng-" <;>
    cases h7 : strContains (lowerStr content) "jquery" <;>
    simp [matchedFrameworks, detect_js_frameworks, framework_patterns, matchesAnyPat,
      h1, h2, h3, h4, h5, h6, h7] <;> decide

/-- C7 witness: a mixed-case body naming React and jQuery yields both labels. -/
theorem C7_js_framework_accumulation_witness :
    "React" ∈ matchedFrameworks "loads ReAcT and JQUERY" ∧
    "jQuery" ∈ matchedFrameworks "loads ReAcT and JQUERY" :=
  (C7_js_framework_accumulation "loads ReAcT and JQUERY").2.2.2.2.2.2
    (by decide) (by decide)

/-- C8: the page size comes from the Content-Length header divided by 1024
and rendered with two decimals — `2048` gives `2.00 KB`, and an absent or
non-numeric Content-Length gives `Unknown`. -/
theorem C8_page_size_from_content_length (w : World) (r : FetchResponse)
    (hf : w.fetch = some r) :
    (msgGet r.headers "Content-Length" = some "2048" →
      getField (get_performance_info w).1 "page_size" = some (.s "2.00 KB")) ∧
    (msgGet r.headers "Content-Length" = none →
      getField (get_performance_info w).1 "page_size" = some (.s "Unknown")) ∧
    (∀ v, msgGet r.headers "Content-Length" = some v →
      (v = "" ∨ v.data.all Char.isDigit = false) →
      getField (get_performance_info w).1 "page_size" = some (.s "Unknown")) := by
  refine ⟨?_, ?_, ?_⟩
  · intro h
    simp only [get_performance_info, getField, hf, h, Option.getD_some]
    rfl
  · intro h
    simp only [get_performance_info, getField, hf, h, Option.getD_none]
    rfl
  · rintro v h (rfl | hd)
    · simp only [get_performance_info, getField, hf, h, Option.getD_some]
      rfl
    · simp only [get_performance_info, getField, hf, h, Option.getD_some, hd,
        Bool.and_false, Bool.false_eq_true, reduceIte]
      rfl

/-- C8 witness: a fetched `Content-Length: 2048` renders as `2.00 KB`; a
response without Content-Length renders as `Unknown`. -/
theorem C8_page_size_from_content_length_witness :
    getField (get_performance_info wCL2048).1 "page_size" = some (.s "2.00 KB") ∧
    getField (get_performance_info wNoCL).1 "page_size" = some (.s "Unknown") :=
  ⟨(C8_page_size_from_content_length wCL2048 rCL2048 rfl).1 (by decide),
   (C8_page_size_from_content_length wNoCL rNoCL rfl).2.1 (by decide)⟩

/-- C9: inside every `security_info` section, the stored `security_headers`
map, the `hsts_enabled` flag and the `content_security_policy` flag are all
computed from one and the same header read — each flag is true exactly when
its header name is a key of the map shown in the same section. -/
theorem C9_security_flags_consistent (url domain : String) (w : World) :
    getField (get_security_info url domain w).1 "security_headers" =
      some (.obj ((get_security_headers w).1.map (fun p => (p.1, Val.s p.2)))) ∧
    getField (get_security_info url domain w).1 "hsts_enabled" =
      some (.b ((get_security_headers w).1.any
        (fun p => p.1 == "Strict-Transport-Security"))) ∧
    getField (get_security_info url domain w).1 "content_security_policy" =
      some (.b ((get_security_headers w).1.any
        (fun p => p.1 == "Content-Security-Policy"))) :=
  ⟨rfl, rfl, rfl⟩

/-- C10: body-based language detection is case-sensitive (an uppercase
`.PHP"` literal with no other signal stays `Unknown`, its lowercase twin
gives PHP) while CMS detection is case-insensitive — any body whose
lowercasing contains `wp-content` classifies as WordPress. -/
theorem C10_language_case_sensitivity :
    detect_programming_language [] ".PHP\"" = "Unknown" ∧
    detect_programming_language [] ".php\"" = "PHP" ∧
    (∀ content, strContains (lowerStr content) "wp-content" = true →
      detect_cms content = "WordPress") := by
  refine ⟨by decide, by decide, ?_⟩
  intro content h
  simp [detect_cms, cms_patterns, matchesAnyPat, h]

/-- C10 witness: the uppercase body `WP-CONTENT` classifies as WordPress. -/
theorem C10_language_case_sensitivity_witness :
    detect_cms "WP-CONTENT" = "WordPress" :=
  C10_language_case_sensitivity.2.2 "WP-CONTENT" (by decide)

/-- C3: for any target URL, in a world where every outbound call raises, the
scan still returns a `success = true` report whose every probe-derived field
carries its documented unknown-style default (status `Unknown`, server fields
`Unknown`, domain fields `Unknown`, SSL disabled with a cause, empty security
headers with both flags false, performance fields `Unknown`, technology
fields at their sentinels), and a correctly-invoked CLI exits 0. -/
theorem C3_all_fail_unknown_report (url domain tlsErr scanTime : String) :
    (scan url domain ⟨none, none, none, none, tlsErr, scanTime⟩).1 =
      [("success", .b true),
       ("data", .obj
         [("basic_info", .obj
            [("url", .s url), ("domain", .s domain), ("status_code", .s "Unknown"),
             ("protocol", .s (parseURL url).scheme),
             ("port", .n (effectivePort (parseURL url)))]),
          ("server_info", .obj
            [("ip_address", .s "Unknown"), ("server", .s "Unknown"),
             ("location", .s "Unknown"), ("city", .s "Unknown"), ("isp", .s "Unknown")]),
          ("domain_info", .obj
            [("registrar", .s "Unknown"), ("creation_date", .s "Unknown"),
             ("expiry_date", .s "Unknown"), ("name_servers", .s "Unknown"),
             ("dnssec", .s "Unknown")]),
          ("security_info", .obj
            [("ssl_certificate", .obj
               (if strStarts url "https" then
                  [("enabled", Val.b false), ("message", Val.s ("SSL error: " ++ tlsErr))]
                else
                  [("enabled", Val.b false), ("message", Val.s "SSL not enabled")])),
             ("security_headers", .obj []),
             ("hsts_enabled", .b false), ("content_security_policy", .b false)]),
          ("performance_info", .obj
            [("response_time", .s "Unknown"), ("compression", .s "Unknown"),
             ("caching", .s "Unknown"), ("page_size", .s "Unknown")]),
          ("technology_info", .obj
            [("web_server", .s "Unknown"), ("programming_language", .s "Unknown"),
             ("cms", .s "Custom/Unknown"), ("javascript_frameworks", .s "Unknown"),
             ("analytics", .s "None detected")])]),
       ("scan_time", .s scanTime)] ∧
    mainExitCode ["scanner.py", url] = 0 := by
  constructor
  · cases hc : strStarts url "https" <;>
      simp only [scan, get_basic_info, get_server_info, get_domain_info, get_security_info,
        get_ssl_info, get_security_headers, get_performance_info, check_compression,
        check_caching, get_technology_info, get_name_servers, get_location_info, getField,
        hc, Bool.false_eq_true, reduceIte] <;> rfl
  · rfl

end WScan
